import Mathlib

/-!
# Verification of the proposed-package-testing image-customization pipeline

Shallow embedding of `src/main.rs`. Pure logic (path computation, the DNS
override on the guest filesystem, the linear command plan of
`install_package`, the mount-stage fallback, and the `CleanupGuard` teardown)
is translated into executable Lean definitions; the outcomes of external
commands and of the spawned child processes are abstracted as explicit
environment parameters (`Cmd → Bool`, `CmdOutput`, `Nat → Bool`, ...), since
the program only branches on their success/failure and captured output.
-/

namespace ProposedPkg

/-! ## Guest filesystem model (for `configure_dns` / `restore_dns`) -/

/-- A filesystem entry inside the mounted guest root: a regular file with its
byte content, or a symbolic link with its target. -/
inductive FsEntry where
  | file (content : String)
  | symlink (target : String)
deriving DecidableEq

/-- The guest filesystem, as a partial map from paths (relative to the guest
root directory) to entries. -/
abbrev FS := String → Option FsEntry

/-- Create or overwrite the entry at path `p` (models `fs::write`, which
truncates/creates). -/
def FS.write (fs : FS) (p : String) (e : FsEntry) : FS :=
  fun q => if q = p then some e else fs q

/-- Remove the entry at path `p`. -/
def FS.remove (fs : FS) (p : String) : FS :=
  fun q => if q = p then none else fs q

/-- Model of `fs::rename src dst`: fails exactly when the source entry is
absent; on success the entry (file or symlink) moves to `dst`, silently
replacing any previous entry there (POSIX rename semantics). -/
def FS.rename (fs : FS) (src dst : String) : Option FS :=
  match fs src with
  | none => none
  | some e => some ((fs.remove src).write dst e)

/-- The guest resolver path `etc/resolv.conf` (relative to the guest root),
from `configure_dns` / `restore_dns` in `main.rs`. -/
def resolvConfPath : String := "etc/resolv.conf"

/-- The backup path `etc/resolv.conf.bak` used by the DNS override. -/
def resolvConfBackupPath : String := "etc/resolv.conf.bak"

/-- The fixed resolver configuration written by `configure_dns`. -/
def customResolvContent : String := "nameserver 1.1.1.1\n"

/-- Model of `configure_dns` (main.rs lines 93-106): if an entry (regular
file or symlink, also a dangling symlink — the code checks
`is_symlink() || exists()`) is present at `etc/resolv.conf`, rename it to the
backup path; then write the fixed nameserver line to `etc/resolv.conf`. -/
def configure_dns (fs : FS) : Option FS :=
  match fs resolvConfPath with
  | some _ =>
    (FS.rename fs resolvConfPath resolvConfBackupPath).map
      (fun f => FS.write f resolvConfPath (FsEntry.file customResolvContent))
  | none => some (FS.write fs resolvConfPath (FsEntry.file customResolvContent))

/-- Model of `restore_dns` (main.rs lines 108-119): if the backup entry
exists (the code checks `exists() || is_symlink()`), rename it back over
`etc/resolv.conf`; otherwise succeed as a no-op. -/
def restore_dns (fs : FS) : Option FS :=
  match fs resolvConfBackupPath with
  | some _ => FS.rename fs resolvConfBackupPath resolvConfPath
  | none => some fs

/-- `configure_dns` followed by `restore_dns`, as executed by
`customize_image` around the package-installation stage. -/
def dns_round_trip (fs : FS) : Option FS :=
  (configure_dns fs).bind restore_dns

/-- The entry found at `etc/resolv.conf` after the DNS override round trip
(`none` if the round trip itself failed). -/
def resolvAfterRoundTrip (fs : FS) : Option (Option FsEntry) :=
  (dns_round_trip fs).map (fun f => f resolvConfPath)

/-! ## Command runner (`run_command`, main.rs lines 14-33) -/

/-- Observable outcome of the spawned child process, as captured by
`Command::output()`: optional clean exit code (`none` models termination by
signal, where `status.code()` is `None`) and the captured output streams. -/
structure CmdOutput where
  code : Option Int
  stdout : String
  stderr : String

/-- `ExitStatus::success()` on Unix: a clean exit with code zero. -/
def statusSuccess (code : Option Int) : Bool := code == some 0

/-- Rust `{:?}` (Debug) rendering of `status.code() : Option<i32>`, as
interpolated into the failure message. -/
def formatStatus : Option Int → String
  | some c => "Some(" ++ toString c ++ ")"
  | none => "None"

/-- The audit line `run_command` prints before spawning the child. -/
def auditLine (command : String) (args : List String) : String :=
  "Executing: " ++ command ++ " " ++ String.intercalate " " args

/-- Model of Rust `str::trim`: remove leading and trailing whitespace. -/
def rustTrim (s : String) : String :=
  String.mk (((s.data.dropWhile Char.isWhitespace).reverse.dropWhile
    Char.isWhitespace).reverse)

/-- Model of `run_command`: the returned pair is (audit line emitted before
execution, result). On success the trimmed stdout is returned; on a
non-successful exit a structured message carrying the caller context, the
Debug-formatted exit code, and both captured streams is produced. -/
def run_command (command : String) (args : List String) (error_msg : String)
    (out : CmdOutput) : String × Except String String :=
  (auditLine command args,
    if statusSuccess out.code then
      Except.ok (rustTrim out.stdout)
    else
      Except.error (error_msg ++ ": Command failed with status " ++ formatStatus out.code ++
        "\nStdout: " ++ out.stdout ++ "\nStderr: " ++ out.stderr))

/-! ## Guest-scoped commands and `install_package` (main.rs lines 121-275) -/

/-- An external command invocation: program plus argument list. -/
structure Cmd where
  prog : String
  args : List String
deriving DecidableEq

/-- A guest-scoped command: `systemd-nspawn -D <rootfs> <rest...>`. -/
def nspawnCmd (rootfs : String) (rest : List String) : Cmd :=
  ⟨"systemd-nspawn", "-D" :: rootfs :: rest⟩

/-- Argument tail of `enable_proposed_repository` (main.rs lines 157-180). -/
def enableProposedArgs : List String :=
  ["apt-add-repository", "--yes", "--no-update", "--uri",
   "http://archive.ubuntu.com/ubuntu/", "--pocket", "proposed",
   "--component", "main", "--component", "universe"]

/-- Argument tail of `disable_proposed_repository` (main.rs lines 182-206). -/
def disableProposedArgs : List String :=
  ["apt-add-repository", "--yes", "--uri",
   "http://archive.ubuntu.com/ubuntu/", "--pocket", "proposed",
   "--component", "main", "--component", "universe", "--remove"]

/-- Argument tail of `add_ppa` (main.rs lines 121-137). -/
def addPpaArgs (ppa : String) : List String :=
  ["apt-add-repository", "--no-update", "--yes", ppa]

/-- Argument tail of `remove_ppa` (main.rs lines 139-155). -/
def removePpaArgs (ppa : String) : List String :=
  ["apt-add-repository", "--yes", "--remove", ppa]

/-- Argument tail of the metadata refresh in `install_package`. -/
def aptUpdateArgs : List String := ["apt-get", "update", "-y"]

/-- Argument tail of the package installation in `install_package`. -/
def aptInstallArgs (pkg : String) : List String := ["apt-get", "install", "-y", pkg]

/-- The linear command sequence of `install_package` (main.rs lines 221-275):
optional repository enable, optional PPA add, metadata refresh, install
(with the staging qualifier `<pkg>/<release>-proposed` when `proposed`),
optional repository disable, optional PPA remove. -/
def install_package_plan (rootfs pkg release : String) (proposed : Bool)
    (ppa : Option String) : List Cmd :=
  let pkgName := if proposed then pkg ++ "/" ++ release ++ "-proposed" else pkg
  (if proposed then [nspawnCmd rootfs enableProposedArgs] else []) ++
  (match ppa with
   | some p => [nspawnCmd rootfs (addPpaArgs p)]
   | none => []) ++
  [nspawnCmd rootfs aptUpdateArgs, nspawnCmd rootfs (aptInstallArgs pkgName)] ++
  (if proposed then [nspawnCmd rootfs disableProposedArgs] else []) ++
  (match ppa with
   | some p => [nspawnCmd rootfs (removePpaArgs p)]
   | none => [])

/-- Run commands in order, stopping at the first failure (this models the
`?` early returns in `install_package`): returns the commands actually
executed, in order, and the overall result, where `Except.error c` reports
the command that failed. -/
def seqRun (exec : Cmd → Bool) : List Cmd → List Cmd × Except Cmd Unit
  | [] => ([], Except.ok ())
  | c :: cs =>
    if exec c then
      let r := seqRun exec cs
      (c :: r.1, r.2)
    else
      ([c], Except.error c)

/-- Model of `install_package`: run the plan sequentially with early return
on the first failing external command. `exec` abstracts the success of each
external command. -/
def install_package (exec : Cmd → Bool) (rootfs pkg release : String)
    (proposed : Bool) (ppa : Option String) : List Cmd × Except Cmd Unit :=
  seqRun exec (install_package_plan rootfs pkg release proposed ppa)

/-! ## Partition mount stage (main.rs lines 461-478) -/

/-- Outcome of the partition-mount block of `customize_image`:
which boot-partition slots were attempted (in order), which slot ended up
mounted at `rootfs/boot` (if any), and the overall result (`Except.error n`:
the mount of partition `n` aborted the pipeline). -/
structure MountStageOut where
  bootAttempts : List Nat
  bootMounted : Option Nat
  result : Except Nat Unit

/-- Model of the mount block in `customize_image` (main.rs lines 461-478).
`part n` tells whether mounting partition slot `n` succeeds. The code:
mount p1 (fatal on failure via `?`); attempt p13 for boot; if that failed,
attempt **p13 again** (the comment says p16, the code says p13) and discard
the result (`let _ = ...`); mount p15 (fatal on failure via `?`). -/
def mount_stage (part : Nat → Bool) : MountStageOut :=
  if part 1 = false then ⟨[], none, Except.error 1⟩
  else
    let attempts : List Nat := if part 13 then [13] else [13, 13]
    let boot : Option Nat := if part 13 then some 13 else none
    if part 15 = false then ⟨attempts, boot, Except.error 15⟩
    else ⟨attempts, boot, Except.ok ()⟩

/-! ## Teardown guard (`CleanupGuard`, main.rs lines 510-540) -/

/-- A teardown action attempted by `CleanupGuard::drop`: the recursive
unmount `umount -R <rootfs>`, or the detach `qemu-nbd --disconnect <dev>`. -/
inductive TearAction where
  | unmountRec
  | detach
deriving DecidableEq

/-- The state of the guard at drop time: the recorded device binding (if
attachment was recorded) and whether the rootfs mount-point directory
exists (`self.rootfs_dir.is_dir()`). -/
structure CleanupGuard where
  nbd_device_path : Option String
  rootfs_dir_is_dir : Bool

/-- Model of `CleanupGuard::drop` (main.rs lines 515-540): returns the
actions attempted, in order, and whether the drop panicked. The unmount
result is discarded (`let _ = run_command(...)`), so `_umountOk` influences
nothing; the detach result is passed through `.unwrap()`
(`let _ = run_command(...).unwrap()`), which panics when the disconnect
command fails. -/
def cleanupDrop (g : CleanupGuard) (_umountOk detachOk : Bool) :
    List TearAction × Bool :=
  ((if g.rootfs_dir_is_dir then [TearAction.unmountRec] else []) ++
    (match g.nbd_device_path with
     | some _ => [TearAction.detach]
     | none => []),
   match g.nbd_device_path with
   | some _ => !detachOk
   | none => false)

/-! ## Pipeline control flow (`customize_image`, main.rs lines 395-508) -/

/-- Success/failure environment for one pipeline run: whether each external
step succeeds. `part` is the partition layout (which mount invocations
succeed); `umountOk`/`detachOk` drive the teardown commands. -/
structure PipelineEnv where
  fetchOk : Bool
  connectOk : Bool
  part : Nat → Bool
  dnsOk : Bool
  releaseOk : Bool
  installOk : Bool
  restoreOk : Bool
  umountOk : Bool
  detachOk : Bool
  copyOk : Bool

/-- Observable outcome of one `customize_image` run: the teardown actions
performed by the guard drop, whether the drop panicked, and the pipeline
result (the stage name of the first fatal error). -/
structure PipelineOut where
  teardown : List TearAction
  teardownPanicked : Bool
  result : Except String Unit

/-- The hardcoded device node used by the pipeline. -/
def nbdDevicePath : String := "/dev/nbd0"

/-- Control-flow model of `customize_image` (main.rs lines 395-508). The
guard is created with no binding and no rootfs directory; the download/copy
and the qemu-nbd connect happen before the binding is recorded and before
the rootfs mount-point directory is created, so a failure of either drops
the guard in its initial state. After the connect, the binding is recorded
and the directory created; every later failure (mount, dns, release,
install, restore) early-returns out of the block, dropping the guard with
binding recorded and directory present. The final `cp` to the output path
runs after the guard has been dropped. -/
def customize_image (e : PipelineEnv) : PipelineOut :=
  if e.fetchOk = false then
    let d := cleanupDrop ⟨none, false⟩ e.umountOk e.detachOk
    ⟨d.1, d.2, Except.error "fetch"⟩
  else if e.connectOk = false then
    let d := cleanupDrop ⟨none, false⟩ e.umountOk e.detachOk
    ⟨d.1, d.2, Except.error "connect"⟩
  else
    let inner : Except String Unit :=
      match (mount_stage e.part).result with
      | Except.error _ => Except.error "mount"
      | Except.ok _ =>
        if e.dnsOk = false then Except.error "dns"
        else if e.releaseOk = false then Except.error "release"
        else if e.installOk = false then Except.error "install"
        else if e.restoreOk = false then Except.error "restore"
        else Except.ok ()
    let d := cleanupDrop ⟨some nbdDevicePath, true⟩ e.umountOk e.detachOk
    let result : Except String Unit :=
      match inner with
      | Except.error s => Except.error s
      | Except.ok _ => if e.copyOk then Except.ok () else Except.error "copy"
    ⟨d.1, d.2, result⟩

/-! ## Output image path (main.rs lines 419-431) -/

/-- The characters of the suffix `".img"`. -/
def imgSuffix : List Char := [ '.', 'i', 'm', 'g' ]

/-- The part of `l` after its last `/` (the whole of `l` if it has none):
models `image_uri.split(slash).last().unwrap()`. -/
def lastComponentChars (l : List Char) : List Char :=
  (l.reverse.takeWhile (fun c => c ≠ '/')).reverse

/-- The final URI component, as a `String`. -/
def lastUriComponent (uri : String) : String :=
  String.mk (lastComponentChars uri.data)

/-- Fuel-indexed loop removing the trailing `.img` suffix as long as it is
present (the fuel, instantiated with the string length, is always
sufficient since each step removes four characters). -/
def trimEndImgLoop : Nat → List Char → List Char
  | 0, l => l
  | n + 1, l =>
    if imgSuffix.isSuffixOf l then trimEndImgLoop n (l.take (l.length - 4)) else l

/-- Model of Rust `s.trim_end_matches(".img")`: all trailing occurrences of
`.img` are removed, repeatedly. -/
def trimEndImg (s : String) : String :=
  String.mk (trimEndImgLoop s.data.length s.data)

/-- The image stem computed at main.rs lines 419-423:
`image_uri.split(slash).last().unwrap().trim_end_matches(".img")`. -/
def image_stem (uri : String) : String := trimEndImg (lastUriComponent uri)

/-- The staging-mode tag of the output file name. -/
def proposedTag (proposed : Bool) : String := if proposed then "_proposed" else ""

/-- The output image path computed at main.rs lines 427-431:
`format("{image_name}_{package_name}{proposed_tag}.img")`. -/
def final_image_path (uri pkg : String) (proposed : Bool) : String :=
  image_stem uri ++ "_" ++ pkg ++ proposedTag proposed ++ ".img"

/-- Strip a single trailing `.img` suffix, if present (on char lists). -/
def stripOneImgChars (l : List Char) : List Char :=
  if imgSuffix.isSuffixOf l then l.take (l.length - 4) else l

/-- Strip a single trailing `.img` suffix, if present. -/
def stripOneImg (s : String) : String := String.mk (stripOneImgChars s.data)

/-- Image stem as worded by claim C8: the final URI component "with a
trailing .img suffix stripped" (one suffix). This follows the claim's words,
for comparison against `image_stem`, which is translated from the source. -/
def claim_image_stem (uri : String) : String := stripOneImg (lastUriComponent uri)

/-- Output path as worded by claim C8 (single-suffix stem). -/
def claim_final_image_path (uri pkg : String) (proposed : Bool) : String :=
  claim_image_stem uri ++ "_" ++ pkg ++ proposedTag proposed ++ ".img"

/-- Amended image stem: the final URI component with trailing `.img`
suffixes stripped repeatedly until none remains (iterating the single strip
as many times as the component is long always reaches that fixpoint). -/
def amended_image_stem (uri : String) : String :=
  stripOneImg^[(lastUriComponent uri).length] (lastUriComponent uri)

/-! ## Concrete inputs used by counterexamples and witnesses -/

/-- A guest filesystem whose only entry is a pre-existing resolver file. -/
def fsWithResolv : FS :=
  fun p => if p = resolvConfPath then some (FsEntry.file "nameserver 8.8.8.8\n") else none

/-- The empty guest filesystem (no resolver file, no backup). -/
def fsEmpty : FS := fun _ => none

/-- A guest filesystem with no `etc/resolv.conf` but a stray pre-existing
`etc/resolv.conf.bak`. -/
def fsStrayBackup : FS :=
  fun p => if p = resolvConfBackupPath then some (FsEntry.file "nameserver 10.0.0.1\n") else none

/-- Environment where every external command succeeds. -/
def execAll : Cmd → Bool := fun _ => true

/-- Environment where exactly the guest `apt-get install` of the staging
package fails. -/
def execInstallFails : Cmd → Bool :=
  fun c => !(c == nspawnCmd "/tmp/rootfs" (aptInstallArgs "htop/noble-proposed"))

/-- Pipeline environment where every step succeeds except the teardown
detach command. -/
def envDetachFail : PipelineEnv :=
  ⟨true, true, fun _ => true, true, true, true, true, true, false, true⟩

/-- Partition layout with the boot filesystem absent at slot 13 but present
at slot 16 (root at 1 and ESP at 15 present). -/
def layoutAltBoot : Nat → Bool := fun n => n == 1 || n == 15 || n == 16

/-- A successful child-process outcome with padded stdout. -/
def outTrimmed : CmdOutput := ⟨some 0, "  noble \n", ""⟩

/-- A failing child-process outcome (exit code 32, as `mount` reports). -/
def outMountFail : CmdOutput :=
  ⟨some 32, "", "mount: special device /dev/nbd0p13 does not exist"⟩

/-! ## Helper lemmas -/

/-- The resolver path and its backup path are distinct. -/
theorem resolv_ne_backup : resolvConfPath ≠ resolvConfBackupPath := by decide

/-- Two guest-scoped commands with the same rootfs but different tails are
different commands. -/
theorem nspawnCmd_ne (rootfs : String) {a b : List String} (h : a ≠ b) :
    nspawnCmd rootfs a ≠ nspawnCmd rootfs b := by
  intro hc
  apply h
  simpa [nspawnCmd, Cmd.mk.injEq] using hc

/-! ## Claim theorems -/

/-- C1: the claim says that with the boot filesystem absent at the primary
slot p13 and present at the alternate slot p16, the mount stage mounts boot
via p16 and proceeds, with a fatal error only if both slots fail. Evaluating
the embedded mount stage at exactly that layout shows the code instead
attempts slot 13 twice (never slot 16), mounts no boot partition at all, and
still reports success — matching its own comment about p16 on neither count. -/
theorem C1_boot_fallback_bug :
    mount_stage layoutAltBoot =
      ⟨[13, 13], none, Except.ok ()⟩ := by
  rfl

/-- C2: the claim says a failing detach during teardown is logged and never
escalates (no panic). Evaluating the embedded `CleanupGuard::drop` with a
recorded binding and a failing `qemu-nbd --disconnect` shows both teardown
actions are attempted but the drop panics (second component `true`), because
the code calls `.unwrap()` on the detach result; the same panic shows up in
a full pipeline run that fails only at detach. -/
theorem C2_detach_unwrap_panics :
    cleanupDrop ⟨some nbdDevicePath, true⟩ true false =
      ([TearAction.unmountRec, TearAction.detach], true) ∧
    (customize_image envDetachFail).teardownPanicked = true := by
  exact ⟨rfl, rfl⟩

/-- C3: on every exit path the guard drop runs and attempts, in order, the
recursive unmount (exactly when the rootfs mount-point directory exists) and
then the detach (exactly when a binding was recorded); the attempted actions
do not depend on the unmount outcome (first conjunct quantifies over
`uOk`), so the detach is attempted even after a failed unmount. In the
pipeline, the guard is dropped on every path: with the binding recorded and
the directory created when the run got past the qemu-nbd connect, and in its
initial state (so that nothing is unmounted or detached) when the run failed
before attachment was recorded. -/
theorem C3_teardown_guard :
    (∀ (g : CleanupGuard) (uOk dOk : Bool),
      (cleanupDrop g uOk dOk).1 =
        (if g.rootfs_dir_is_dir then [TearAction.unmountRec] else []) ++
        (if g.nbd_device_path.isSome then [TearAction.detach] else [])) ∧
    (∀ e : PipelineEnv,
      (customize_image e).teardown =
        if e.fetchOk && e.connectOk then [TearAction.unmountRec, TearAction.detach]
        else []) := by
  constructor
  · intro g uOk dOk
    cases h : g.nbd_device_path <;> simp [cleanupDrop, h]
  · intro e
    cases hf : e.fetchOk
    · simp [customize_image, hf, cleanupDrop]
    · cases hc : e.connectOk
      · simp [customize_image, hf, hc, cleanupDrop]
      · simp [customize_image, hf, hc, cleanupDrop]

/-- C4: for a guest with a pre-existing resolver entry (file or symlink),
`configure_dns` renames it to the backup path and writes the single public
nameserver line; `restore_dns` then renames the backup back, so the restored
entry is exactly the original one (byte-identical) and the backup is gone.
For a guest with no backup present, `restore_dns` is a no-op returning the
filesystem unchanged (in particular it creates no resolver file). -/
theorem C4_resolver_roundtrip :
    (∀ (fs : FS) (e : FsEntry), fs resolvConfPath = some e →
      ∃ f1 f2, configure_dns fs = some f1 ∧
        f1 resolvConfBackupPath = some e ∧
        f1 resolvConfPath = some (FsEntry.file customResolvContent) ∧
        restore_dns f1 = some f2 ∧
        f2 resolvConfPath = some e ∧
        f2 resolvConfBackupPath = none) ∧
    (∀ fs : FS, fs resolvConfBackupPath = none → restore_dns fs = some fs) := by
  constructor
  · intro fs e h
    have hne : resolvConfBackupPath ≠ resolvConfPath := Ne.symm resolv_ne_backup
    have hcfg : configure_dns fs =
        some (FS.write ((FS.remove fs resolvConfPath).write resolvConfBackupPath e)
          resolvConfPath (FsEntry.file customResolvContent)) := by
      simp [configure_dns, h, FS.rename]
    set f1 := FS.write ((FS.remove fs resolvConfPath).write resolvConfBackupPath e)
      resolvConfPath (FsEntry.file customResolvContent) with hf1
    have h1b : f1 resolvConfBackupPath = some e := by
      simp [hf1, FS.write, hne]
    have h1r : f1 resolvConfPath = some (FsEntry.file customResolvContent) := by
      simp [hf1, FS.write]
    have hrest : restore_dns f1 =
        some ((FS.remove f1 resolvConfBackupPath).write resolvConfPath e) := by
      unfold restore_dns
      rw [h1b]
      unfold FS.rename
      rw [h1b]
    have h2r : ((FS.remove f1 resolvConfBackupPath).write resolvConfPath e)
        resolvConfPath = some e := by
      simp [FS.write]
    have h2b : ((FS.remove f1 resolvConfBackupPath).write resolvConfPath e)
        resolvConfBackupPath = none := by
      simp [FS.write, FS.remove, hne]
    exact ⟨f1, _, hcfg, h1b, h1r, hrest, h2r, h2b⟩
  · intro fs h
    simp [restore_dns, h]

/-- Witness for C4 at concrete inputs: a guest whose resolver file holds
`nameserver 8.8.8.8` round-trips back to exactly that entry, and restore on
the empty guest is a no-op. -/
theorem C4_resolver_roundtrip_witness :
    fsWithResolv resolvConfPath = some (FsEntry.file "nameserver 8.8.8.8\n") ∧
    (∃ f1 f2, configure_dns fsWithResolv = some f1 ∧
      f1 resolvConfBackupPath = some (FsEntry.file "nameserver 8.8.8.8\n") ∧
      f1 resolvConfPath = some (FsEntry.file customResolvContent) ∧
      restore_dns f1 = some f2 ∧
      f2 resolvConfPath = some (FsEntry.file "nameserver 8.8.8.8\n") ∧
      f2 resolvConfBackupPath = none) ∧
    fsEmpty resolvConfBackupPath = none ∧
    restore_dns fsEmpty = some fsEmpty :=
  ⟨rfl, C4_resolver_roundtrip.1 fsWithResolv _ rfl, rfl,
    C4_resolver_roundtrip.2 fsEmpty rfl⟩

/-- C9 counterexample: the claim quantifies over every guest with neither a
file nor a symlink at `etc/resolv.conf`, and asserts the round trip leaves
`etc/resolv.conf` holding exactly `nameserver 1.1.1.1` plus newline. A guest
that additionally ships a stray `etc/resolv.conf.bak` satisfies the claim's
hypothesis, yet after enable-then-restore the resolver file holds the stray
backup's content instead: `restore_dns` renames the stray backup over the
file `configure_dns` wrote. -/
theorem C9_counterexample :
    fsStrayBackup resolvConfPath = none ∧
    resolvAfterRoundTrip fsStrayBackup =
      some (some (FsEntry.file "nameserver 10.0.0.1\n")) ∧
    FsEntry.file "nameserver 10.0.0.1\n" ≠ FsEntry.file customResolvContent := by
  refine ⟨rfl, rfl, by decide⟩

/-- C9 amended: for every guest with no entry at `etc/resolv.conf` and no
entry at `etc/resolv.conf.bak`, enable writes the nameserver line without
taking a backup, restore is a no-op, and the guest is left with
`etc/resolv.conf` holding exactly `nameserver 1.1.1.1` plus newline — it
does not return to its original no-resolver state. -/
theorem C9_amended_roundtrip (fs : FS) (h1 : fs resolvConfPath = none)
    (h2 : fs resolvConfBackupPath = none) :
    resolvAfterRoundTrip fs = some (some (FsEntry.file customResolvContent)) := by
  have hcfg : configure_dns fs =
      some (FS.write fs resolvConfPath (FsEntry.file customResolvContent)) := by
    simp [configure_dns, h1]
  have hbak : FS.write fs resolvConfPath (FsEntry.file customResolvContent)
      resolvConfBackupPath = none := by
    have hne : resolvConfBackupPath ≠ resolvConfPath := Ne.symm resolv_ne_backup
    simp [FS.write, hne, h2]
  have hres : restore_dns (FS.write fs resolvConfPath (FsEntry.file customResolvContent)) =
      some (FS.write fs resolvConfPath (FsEntry.file customResolvContent)) := by
    unfold restore_dns
    rw [hbak]
  have hlook : FS.write fs resolvConfPath (FsEntry.file customResolvContent)
      resolvConfPath = some (FsEntry.file customResolvContent) := by
    simp [FS.write]
  simp [resolvAfterRoundTrip, dns_round_trip, hcfg, hres, hlook]

/-- Witness for C9 amended at the empty guest filesystem. -/
theorem C9_amended_roundtrip_witness :
    fsEmpty resolvConfPath = none ∧
    fsEmpty resolvConfBackupPath = none ∧
    resolvAfterRoundTrip fsEmpty = some (some (FsEntry.file customResolvContent)) :=
  ⟨rfl, rfl, C9_amended_roundtrip fsEmpty rfl rfl⟩

/-- C5: in staging mode (no PPA), when every step succeeds, the stage runs
exactly the linear sequence: enable the proposed repository (whose argument
tail carries the `--no-update` flag), refresh metadata, install the package
qualified as `<pkg>/<release>-proposed`, then disable the repository; the
disable argument tail is the enable tail with `--no-update` dropped and
`--remove` appended (so it mirrors the URI/pocket/component arguments and
adds the removal flag). -/
theorem C5_proposed_sequence (exec : Cmd → Bool) (rootfs pkg release : String)
    (h : ∀ c ∈ install_package_plan rootfs pkg release true none, exec c = true) :
    install_package exec rootfs pkg release true none =
      ([nspawnCmd rootfs enableProposedArgs,
        nspawnCmd rootfs aptUpdateArgs,
        nspawnCmd rootfs (aptInstallArgs (pkg ++ "/" ++ release ++ "-proposed")),
        nspawnCmd rootfs disableProposedArgs], Except.ok ()) ∧
    disableProposedArgs = enableProposedArgs.erase "--no-update" ++ ["--remove"] := by
  have hplan : install_package_plan rootfs pkg release true none =
      [nspawnCmd rootfs enableProposedArgs,
       nspawnCmd rootfs aptUpdateArgs,
       nspawnCmd rootfs (aptInstallArgs (pkg ++ "/" ++ release ++ "-proposed")),
       nspawnCmd rootfs disableProposedArgs] := rfl
  have he : exec (nspawnCmd rootfs enableProposedArgs) = true := h _ (by rw [hplan]; simp)
  have hu : exec (nspawnCmd rootfs aptUpdateArgs) = true := h _ (by rw [hplan]; simp)
  have hi : exec (nspawnCmd rootfs (aptInstallArgs (pkg ++ "/" ++ release ++ "-proposed"))) =
      true := h _ (by rw [hplan]; simp)
  have hd : exec (nspawnCmd rootfs disableProposedArgs) = true := h _ (by rw [hplan]; simp)
  refine ⟨?_, by decide⟩
  rw [install_package, hplan]
  simp [seqRun, he, hu, hi, hd]

/-- Witness for C5: staging-mode installation of `curl` on release `noble`
with every command succeeding produces exactly the four-command sequence. -/
theorem C5_proposed_sequence_witness :
    (∀ c ∈ install_package_plan "/tmp/rootfs" "curl" "noble" true none,
      execAll c = true) ∧
    install_package execAll "/tmp/rootfs" "curl" "noble" true none =
      ([nspawnCmd "/tmp/rootfs" enableProposedArgs,
        nspawnCmd "/tmp/rootfs" aptUpdateArgs,
        nspawnCmd "/tmp/rootfs" (aptInstallArgs ("curl" ++ "/" ++ "noble" ++ "-proposed")),
        nspawnCmd "/tmp/rootfs" disableProposedArgs], Except.ok ()) := by
  have h : ∀ c ∈ install_package_plan "/tmp/rootfs" "curl" "noble" true none,
      execAll c = true := by
    intro c _
    rfl
  exact ⟨h, (C5_proposed_sequence execAll "/tmp/rootfs" "curl" "noble" h).1⟩

/-- C6: in staging mode, if the repository enable and metadata refresh
succeed but the package installation command fails, `install_package` stops
at the failing install: the executed trace is exactly enable, update,
install, the result is the install failure, and the repository-disable
command is never executed (the staging source stays enabled). -/
theorem C6_install_failure_keeps_repo (exec : Cmd → Bool) (rootfs pkg release : String)
    (h1 : exec (nspawnCmd rootfs enableProposedArgs) = true)
    (h2 : exec (nspawnCmd rootfs aptUpdateArgs) = true)
    (h3 : exec (nspawnCmd rootfs (aptInstallArgs (pkg ++ "/" ++ release ++ "-proposed"))) =
      false) :
    install_package exec rootfs pkg release true none =
      ([nspawnCmd rootfs enableProposedArgs,
        nspawnCmd rootfs aptUpdateArgs,
        nspawnCmd rootfs (aptInstallArgs (pkg ++ "/" ++ release ++ "-proposed"))],
       Except.error (nspawnCmd rootfs (aptInstallArgs (pkg ++ "/" ++ release ++ "-proposed")))) ∧
    nspawnCmd rootfs disableProposedArgs ∉
      (install_package exec rootfs pkg release true none).1 := by
  have hplan : install_package_plan rootfs pkg release true none =
      [nspawnCmd rootfs enableProposedArgs,
       nspawnCmd rootfs aptUpdateArgs,
       nspawnCmd rootfs (aptInstallArgs (pkg ++ "/" ++ release ++ "-proposed")),
       nspawnCmd rootfs disableProposedArgs] := rfl
  have hmain : install_package exec rootfs pkg release true none =
      ([nspawnCmd rootfs enableProposedArgs,
        nspawnCmd rootfs aptUpdateArgs,
        nspawnCmd rootfs (aptInstallArgs (pkg ++ "/" ++ release ++ "-proposed"))],
       Except.error (nspawnCmd rootfs (aptInstallArgs (pkg ++ "/" ++ release ++ "-proposed")))) := by
    rw [install_package, hplan]
    simp [seqRun, h1, h2, h3]
  refine ⟨hmain, ?_⟩
  rw [hmain]
  intro hmem
  have hne1 : nspawnCmd rootfs disableProposedArgs ≠ nspawnCmd rootfs enableProposedArgs :=
    nspawnCmd_ne rootfs (by decide)
  have hne2 : nspawnCmd rootfs disableProposedArgs ≠ nspawnCmd rootfs aptUpdateArgs :=
    nspawnCmd_ne rootfs (by decide)
  have hne3 : nspawnCmd rootfs disableProposedArgs ≠
      nspawnCmd rootfs (aptInstallArgs (pkg ++ "/" ++ release ++ "-proposed")) := by
    intro hc
    have : disableProposedArgs = aptInstallArgs (pkg ++ "/" ++ release ++ "-proposed") := by
      simpa [nspawnCmd, Cmd.mk.injEq] using hc
    have hlen := congrArg List.length this
    simp [disableProposedArgs, aptInstallArgs] at hlen
  simp only [List.mem_cons, List.not_mem_nil, or_false] at hmem
  rcases hmem with hmem | hmem | hmem
  · exact hne1 hmem
  · exact hne2 hmem
  · exact hne3 hmem

/-- Witness for C6: with the concrete environment failing exactly at the
staging install of `htop/noble-proposed`, the disable command is not among
the executed commands. -/
theorem C6_install_failure_keeps_repo_witness :
    execInstallFails (nspawnCmd "/tmp/rootfs" enableProposedArgs) = true ∧
    execInstallFails (nspawnCmd "/tmp/rootfs" aptUpdateArgs) = true ∧
    execInstallFails (nspawnCmd "/tmp/rootfs"
      (aptInstallArgs ("htop" ++ "/" ++ "noble" ++ "-proposed"))) = false ∧
    nspawnCmd "/tmp/rootfs" disableProposedArgs ∉
      (install_package execInstallFails "/tmp/rootfs" "htop" "noble" true none).1 := by
  refine ⟨by decide, by decide, by decide, ?_⟩
  exact (C6_install_failure_keeps_repo execInstallFails "/tmp/rootfs" "htop" "noble"
    (by decide) (by decide) (by decide)).2

/-- C10: with staging mode off and no PPA, every command `install_package`
executes is either the metadata refresh or the package install (so no
`apt-add-repository` add or remove is ever issued and the guest's
package-source configuration is untouched), and when both commands succeed
the trace is exactly refresh-then-install with success. -/
theorem C10_frame_no_repo_change (exec : Cmd → Bool) (rootfs pkg release : String) :
    (∀ c ∈ (install_package exec rootfs pkg release false none).1,
      c = nspawnCmd rootfs aptUpdateArgs ∨ c = nspawnCmd rootfs (aptInstallArgs pkg)) ∧
    (exec (nspawnCmd rootfs aptUpdateArgs) = true →
      exec (nspawnCmd rootfs (aptInstallArgs pkg)) = true →
      install_package exec rootfs pkg release false none =
        ([nspawnCmd rootfs aptUpdateArgs, nspawnCmd rootfs (aptInstallArgs pkg)],
         Except.ok ())) := by
  have hplan : install_package_plan rootfs pkg release false none =
      [nspawnCmd rootfs aptUpdateArgs, nspawnCmd rootfs (aptInstallArgs pkg)] := rfl
  constructor
  · intro c hc
    rw [install_package, hplan] at hc
    cases hu : exec (nspawnCmd rootfs aptUpdateArgs) <;>
      cases hi : exec (nspawnCmd rootfs (aptInstallArgs pkg)) <;>
        simp [seqRun, hu, hi] at hc <;> tauto
  · intro hu hi
    rw [install_package, hplan]
    simp [seqRun, hu, hi]

/-- Witness for C10: all-succeeding environment, package `htop`: the trace
is exactly the refresh and the install, and a membership instance of the
first conjunct holds at the refresh command. -/
theorem C10_frame_no_repo_change_witness :
    (nspawnCmd "/tmp/rootfs" aptUpdateArgs = nspawnCmd "/tmp/rootfs" aptUpdateArgs ∨
      nspawnCmd "/tmp/rootfs" aptUpdateArgs = nspawnCmd "/tmp/rootfs" (aptInstallArgs "htop")) ∧
    install_package execAll "/tmp/rootfs" "htop" "noble" false none =
      ([nspawnCmd "/tmp/rootfs" aptUpdateArgs, nspawnCmd "/tmp/rootfs" (aptInstallArgs "htop")],
       Except.ok ()) := by
  refine ⟨?_, (C10_frame_no_repo_change execAll "/tmp/rootfs" "htop" "noble").2 rfl rfl⟩
  exact (C10_frame_no_repo_change execAll "/tmp/rootfs" "htop" "noble").1
    (nspawnCmd "/tmp/rootfs" aptUpdateArgs) (by decide)

/-- C7: for every invocation of the command runner, the audit line naming
the program and its arguments is the one emitted before execution; a clean
zero exit yields the child's stdout with surrounding whitespace trimmed; any
other outcome (nonzero code, or no clean exit code) yields a structured
error message carrying the caller-supplied context, the Debug-formatted
exit code (`Some(n)` or the termination indicator `None`), the captured
stdout, and the captured stderr. -/
theorem C7_run_command_contract (command : String) (args : List String)
    (error_msg : String) (out : CmdOutput) :
    (run_command command args error_msg out).1 =
      "Executing: " ++ command ++ " " ++ String.intercalate " " args ∧
    (out.code = some 0 →
      (run_command command args error_msg out).2 = Except.ok (rustTrim out.stdout)) ∧
    (out.code ≠ some 0 →
      (run_command command args error_msg out).2 =
        Except.error (error_msg ++ ": Command failed with status " ++ formatStatus out.code ++
          "\nStdout: " ++ out.stdout ++ "\nStderr: " ++ out.stderr)) := by
  refine ⟨rfl, ?_, ?_⟩
  · intro h
    simp [run_command, statusSuccess, h]
  · intro h
    simp [run_command, statusSuccess, beq_iff_eq, h]

/-- Witness for C7 at concrete outcomes: a zero-exit child with padded
stdout returns the trimmed text, and an exit-32 `mount` child produces the
structured failure message. -/
theorem C7_run_command_contract_witness :
    outTrimmed.code = some 0 ∧
    (run_command "mount" ["/dev/nbd0p1", "/tmp/rootfs"] "Failed to mount"
      outTrimmed).2 = Except.ok "noble" ∧
    outMountFail.code ≠ some 0 ∧
    (run_command "mount" ["/dev/nbd0p13", "/tmp/rootfs/boot"] "Failed to mount"
      outMountFail).2 =
      Except.error ("Failed to mount: Command failed with status Some(32)\nStdout: \nStderr: mount: special device /dev/nbd0p13 does not exist") := by
  refine ⟨rfl, ?_, by decide, ?_⟩
  · have h := (C7_run_command_contract "mount" ["/dev/nbd0p1", "/tmp/rootfs"]
      "Failed to mount" outTrimmed).2.1 rfl
    rw [h]
    exact congrArg Except.ok (by decide)
  · have h := (C7_run_command_contract "mount" ["/dev/nbd0p13", "/tmp/rootfs/boot"]
      "Failed to mount" outMountFail).2.2 (by decide)
    rw [h]
    exact congrArg Except.error (by decide)

/-- C8 counterexample: the claim computes the stem by stripping a single
trailing `.img` suffix off the final URI component, but the code uses
`trim_end_matches(".img")`, which strips repeatedly: on the image URI
`http://cloud-images.example.com/noble.img.img` (a successful run is
possible for any local or remote URI) the code produces `noble_htop.img`
while the claim's formula produces `noble.img_htop.img`. -/
theorem C8_counterexample :
    final_image_path "http://cloud-images.example.com/noble.img.img" "htop" false =
      "noble_htop.img" ∧
    claim_final_image_path "http://cloud-images.example.com/noble.img.img" "htop" false =
      "noble.img_htop.img" ∧
    ("noble_htop.img" : String) ≠ "noble.img_htop.img" := by
  refine ⟨by decide, by decide, by decide⟩

/-- The trim loop equals iterating the single-suffix strip: removing the
trailing `.img` suffix as long as it is present is the same as applying the
one-suffix strip `n` times (once the suffix is gone, further applications
are the identity). -/
theorem trimEndImgLoop_eq_iterate (n : Nat) (l : List Char) :
    trimEndImgLoop n l = stripOneImgChars^[n] l := by
  induction n generalizing l with
  | zero => rfl
  | succ n ih =>
    by_cases h : imgSuffix.isSuffixOf l = true
    · simp only [trimEndImgLoop, if_pos h, ih, Function.iterate_succ_apply]
      simp only [stripOneImgChars, if_pos h]
    · have hfix : stripOneImgChars l = l := by
        simp only [stripOneImgChars, if_neg h]
      simp only [trimEndImgLoop, if_neg h, Function.iterate_fixed hfix]

/-- Iterating the string-level single strip agrees with iterating the
char-list-level single strip. -/
theorem iterate_stripOneImg_mk (n : Nat) (l : List Char) :
    stripOneImg^[n] (String.mk l) = String.mk (stripOneImgChars^[n] l) := by
  induction n generalizing l with
  | zero => rfl
  | succ n ih =>
    rw [Function.iterate_succ_apply, Function.iterate_succ_apply]
    have hstep : stripOneImg (String.mk l) = String.mk (stripOneImgChars l) := rfl
    rw [hstep, ih]

/-- C8 amended: the output image path equals
`<stem>_<package>.img` (staging off) or `<stem>_<package>_proposed.img`
(staging on), where the stem is the final component of the image URI with
**all** trailing `.img` suffixes repeatedly stripped (not just one) — the
`trim_end_matches` semantics, here expressed as iterating the single-suffix
strip until it fixes. -/
theorem C8_amended_output_path (uri pkg : String) (proposed : Bool) :
    final_image_path uri pkg proposed =
      amended_image_stem uri ++ "_" ++ pkg ++ proposedTag proposed ++ ".img" := by
  have hstem : image_stem uri = amended_image_stem uri := by
    show String.mk (trimEndImgLoop (lastComponentChars uri.data).length
        (lastComponentChars uri.data)) =
      stripOneImg^[(lastUriComponent uri).length] (lastUriComponent uri)
    rw [trimEndImgLoop_eq_iterate]
    exact (iterate_stripOneImg_mk _ _).symm
  unfold final_image_path
  rw [hstem]

end ProposedPkg
